import Mathlib

/-!
# Verification of the UVR processor (`src/main.py`)

A shallow embedding of the stem-separation service in `src/main.py`:

* Waveforms are lists of integer samples (one channel; pydub amplitude
  arithmetic clamps at the 16-bit sample boundaries as `audioop.add` does).
* The filesystem is a write log, newest entry first, so `List.lookup`
  returns the current content of a path.
* `separate_stems`, `save_upload_to_disk` and `process_audio` mirror the
  functions of the same names; the demucs model is a record carrying its
  source vocabulary and its (opaque, deterministic) separation function,
  and `apply_model`'s output is the record's function applied to the input.
* pydub's `AudioSegment.silent`, `overlay` and `export`/`from_wav` are
  embedded with their real semantics; in particular `overlay` truncates
  the overlaid segment to the length of the receiver.
-/

/-! ## Characters, paths and substring tests -/

/-- Python's substring test `needle in hay`, on character lists
(`"acca" in lane` in `src/main.py` line 75). -/
def containsSub (needle : List Char) : List Char → Bool
  | [] => needle.isEmpty
  | c :: rest => needle.isPrefixOf (c :: rest) || containsSub needle rest

/-- `os.path.basename`: the characters after the last path separator. -/
def basenameChars (l : List Char) : List Char :=
  (l.reverse.takeWhile (fun c => c != '/')).reverse

/-- `os.path.basename` on strings (`src/main.py` line 124). -/
def basename (p : String) : String :=
  ⟨basenameChars p.data⟩

/-- `pathlib.Path(p).stem`: the final component without its last
extension (`audio_path.stem` in `src/main.py` line 64). -/
def path_stem (p : String) : String :=
  let b := basenameChars p.data
  if b.contains '.' then ⟨((b.reverse.dropWhile (fun c => c != '.')).drop 1).reverse⟩
  else ⟨b⟩

/-- Lane classification of `src/main.py` line 75: a lane is in the
reduction ("acca") class iff it contains the marker substring `"acca"`. -/
def isAccaLane (lane : String) : Bool :=
  containsSub "acca".data lane.data

/-! ## Audio: pydub semantics -/

/-- `audioop`-style clamping of a sample at the 16-bit boundaries: pydub's
sample arithmetic saturates instead of wrapping. -/
def clamp (x : Int) : Int :=
  max (-32768) (min 32767 x)

/-- `AudioSegment.silent(duration=d)`: `d` zero samples (duration measured
in samples). -/
def silent (duration : Nat) : List Int :=
  List.replicate duration 0

/-- `AudioSegment.overlay`: sample-wise clamped addition over the overlap,
with the result truncated to the RECEIVER's length — pydub never extends
the segment being overlaid onto. -/
def overlay (a b : List Int) : List Int :=
  (List.zipWith (fun x y => clamp (x + y)) a b) ++ a.drop b.length

/-! ## Filesystem and model -/

/-- The temp-directory filesystem: a write log of `(path, samples)` pairs,
newest first, so `List.lookup` yields the latest content of a path. -/
abbrev FileSystem := List (String × List Int)

/-- `AudioSegment.from_wav(path)` / reading a written file: the current
content of the path (empty if the path was never written). -/
def from_wav (files : FileSystem) (p : String) : List Int :=
  (files.lookup p).getD []

/-- The demucs model: its source vocabulary (`model.sources`, e.g.
`["drums", "bass", "other", "vocals"]`) and its separation function. -/
structure DemucsModel where
  sources : List String
  separate : List Int → Nat → List (List Int)

/-- `apply_model(model, wav, sr)` (`src/main.py` line 61): run the model's
separation function. -/
def apply_model (model : DemucsModel) (wav : List Int) (sr : Nat) : List (List Int) :=
  model.separate wav sr

/-! ## `separate_stems` (`src/main.py` lines 52–94) -/

/-- The write loop of `src/main.py` lines 67–72: for each
`(name, audio)` in `zip(model.sources, stems)`, write
`output_dir/name.wav` and record `stem_map[name] = path`. -/
def write_stems (output_dir : String) :
    List (String × List Int) → FileSystem → List (String × Option String) →
    FileSystem × List (String × Option String)
  | [], files, stem_map => (files, stem_map)
  | (name, audio) :: rest, files, stem_map =>
    let out_path := output_dir ++ "/" ++ name ++ ".wav"
    write_stems output_dir rest ((out_path, audio) :: files) (stem_map ++ [(name, some out_path)])

/-- The lane branch of `src/main.py` lines 74–94.  For an "acca" lane:
`vocal_path = stem_map.get("vocals")` (None when absent), the non-vocal
paths are overlaid one by one onto `AudioSegment.silent(duration=0)`, the
mix is exported to `output_dir/instrumental.wav`, and the two-entry dict
`{"vocals": vocal_path, "instrumental": inst_path}` is returned.  For any
other lane the full `stem_map` is returned unchanged. -/
def aggregate (files : FileSystem) (stem_map : List (String × Option String))
    (output_dir lane : String) : FileSystem × List (String × Option String) :=
  if isAccaLane lane then
    let vocal_path := (stem_map.lookup "vocals").getD none
    let other_parts := (stem_map.filter (fun e => e.1 != "vocals")).filterMap (fun e => e.2)
    let instrumental_mix :=
      other_parts.foldl (fun mix part => overlay mix (from_wav files part)) (silent 0)
    let inst_path := output_dir ++ "/instrumental.wav"
    ((inst_path, instrumental_mix) :: files, [("vocals", vocal_path), ("instrumental", some inst_path)])
  else
    (files, stem_map)

/-- `separate_stems(audio_path, lane)` (`src/main.py` lines 52–94): run
the model, write every stem file into `temp/out_<stem of audio_path>`,
then apply the lane branch.  `audio_stem` is `audio_path.stem`; the
result is the new filesystem and the returned dict. -/
def separate_stems (model : DemucsModel) (files : FileSystem) (wav : List Int)
    (sr : Nat) (audio_stem lane : String) : FileSystem × List (String × Option String) :=
  let stems := apply_model model wav sr
  let output_dir := "temp/out_" ++ audio_stem
  let ws := write_stems output_dir (model.sources.zip stems) files []
  aggregate ws.1 ws.2 output_dir lane

/-! ## The endpoint (`src/main.py` lines 39–49 and 101–137) -/

/-- The failure classifications a request can surface.  `uploadError` is
the spec's taxonomy entry for a rejected upload; `decodeError` is an
undecodable audio file; `typeError` is Python's `TypeError` from
`os.path.basename(None)`. -/
inductive Err where
  | uploadError
  | decodeError
  | typeError
deriving DecidableEq

/-- An inbound multipart upload: a filename and the raw content. -/
structure Upload where
  filename : String
  bytes : List Int
deriving DecidableEq

/-- One element of the response's `stems` list (`src/main.py`
lines 121–125). -/
structure ResultEntry where
  name : String
  path : String
  url : String
deriving DecidableEq

/-- Process-wide state: the model loaded once at start
(`src/main.py` line 32) and the temp-directory filesystem. -/
structure ServerState where
  model : DemucsModel
  files : FileSystem

/-- `save_upload_to_disk` (`src/main.py` lines 39–49): write the upload's
content — with no validation, empty content included — to
`temp/<file_id>_<filename>` and return the path. -/
def save_upload_to_disk (files : FileSystem) (file_id : String) (upload : Upload) :
    FileSystem × String :=
  let file_path := "temp/" ++ file_id ++ "_" ++ upload.filename
  ((file_path, upload.bytes) :: files, file_path)

/-- `torchaudio.load` (`src/main.py` line 58), an external library call:
decoding an empty (zero-byte) file raises, a non-empty file is modelled
as decoding to its content at a fixed sample rate.  Only the
empty-versus-non-empty distinction is relied on. -/
def torchaudio_load (data : List Int) : Except Err (List Int × Nat) :=
  if data.isEmpty then .error .decodeError else .ok (data, 44100)

/-- The response assembly of `src/main.py` lines 119–128: one entry per
returned `(name, path)` pair, with `url = "/files/" + basename(path)`.
A `None` path makes `os.path.basename` raise `TypeError`. -/
def assemble_result : List (String × Option String) → Except Err (List ResultEntry)
  | [] => .ok []
  | (name, some path) :: rest =>
    (assemble_result rest).map
      (fun es => { name := name, path := path, url := "/files/" ++ basename path } :: es)
  | (_, none) :: _ => .error .typeError

/-- The `/process` endpoint `process_audio` (`src/main.py` lines 101–130):
save the upload, load it, run `separate_stems`, assemble the response.
`file_id` stands for the generated `uuid4`. -/
def process_audio (s : ServerState) (file_id : String) (file : Upload) (lane : String) :
    Except Err (List ResultEntry) × ServerState :=
  let saved := save_upload_to_disk s.files file_id file
  match torchaudio_load (from_wav saved.1 saved.2) with
  | .error e => (.error e, { s with files := saved.1 })
  | .ok (wav, sr) =>
    let sep := separate_stems s.model saved.1 wav sr (path_stem saved.2) lane
    match assemble_result sep.2 with
    | .error e => (.error e, { s with files := sep.1 })
    | .ok entries => (.ok entries, { s with files := sep.1 })

/-- The static mount `app.mount("/files", StaticFiles(directory="temp"))`
(`src/main.py` line 137): a URL under `/files/` is served from the
corresponding path directly inside `temp/`. -/
def static_resolve (url : String) : Option String :=
  if "/files/".data.isPrefixOf url.data then some ("temp/" ++ ⟨url.data.drop 7⟩) else none

/-! ## Helper lemmas -/

theorem containsSub_iff (needle hay : List Char) :
    containsSub needle hay = true ↔ ∃ s t, hay = s ++ needle ++ t := by
  induction hay with
  | nil =>
    constructor
    · intro h
      have hn : needle = [] := by simpa [containsSub, List.isEmpty_iff] using h
      exact ⟨[], [], by simp [hn]⟩
    · rintro ⟨s, t, hst⟩
      have h2 := hst.symm
      simp only [List.append_eq_nil] at h2
      simp [containsSub, h2.1.2]
  | cons c rest ih =>
    show (needle.isPrefixOf (c :: rest) || containsSub needle rest) = true ↔ _
    rw [Bool.or_eq_true, ih, List.isPrefixOf_iff_prefix]
    constructor
    · rintro (⟨t, ht⟩ | ⟨s, t, rfl⟩)
      · exact ⟨[], t, by simpa using ht.symm⟩
      · exact ⟨c :: s, t, rfl⟩
    · rintro ⟨s, t, hst⟩
      cases s with
      | nil => exact Or.inl ⟨t, by simpa using hst.symm⟩
      | cons c2 s2 =>
        right
        simp only [List.cons_append] at hst
        injection hst with h1 h2
        exact ⟨s2, t, h2⟩

theorem write_stems_mem_mono (output_dir : String) (x : String × List Int) :
    ∀ (pairs : List (String × List Int)) (files : FileSystem)
      (stem_map : List (String × Option String)), x ∈ files →
      x ∈ (write_stems output_dir pairs files stem_map).1 := by
  intro pairs
  induction pairs with
  | nil => intro files stem_map hx; exact hx
  | cons p rest ih =>
    intro files stem_map hx
    obtain ⟨n, a⟩ := p
    simp only [write_stems]
    exact ih _ _ (List.mem_cons_of_mem _ hx)

theorem write_stems_mem_write (output_dir name : String) (audio : List Int) :
    ∀ (pairs : List (String × List Int)) (files : FileSystem)
      (stem_map : List (String × Option String)), (name, audio) ∈ pairs →
      (output_dir ++ "/" ++ name ++ ".wav", audio) ∈ (write_stems output_dir pairs files stem_map).1 := by
  intro pairs
  induction pairs with
  | nil => intro files stem_map h; cases h
  | cons p rest ih =>
    intro files stem_map h
    obtain ⟨n, a⟩ := p
    simp only [write_stems]
    rcases List.mem_cons.mp h with heq | hmem
    · injection heq with h1 h2
      subst h1; subst h2
      exact write_stems_mem_mono _ _ _ _ _ (List.mem_cons_self _ _)
    · exact ih _ _ hmem

theorem process_audio_model (s : ServerState) (file_id : String) (file : Upload) (lane : String) :
    (process_audio s file_id file lane).2.model = s.model := by
  simp only [process_audio]
  split
  · rfl
  · split
    · rfl
    · rfl

/-! ## Claims -/

/-- Claim C1: the summation law fails on the code.  With stems drums,
bass, other, vocals each of length N = 1, the synthesized instrumental is
the EMPTY waveform, not the length-1 clamped sum: the mixing loop overlays
each non-vocal stem onto `AudioSegment.silent(duration=0)`, and pydub's
`overlay` truncates to the receiver's length, so every contribution is
discarded.  The clamped sum the claim requires at index 0 would be 1230. -/
theorem c1_summation_law_fails :
    from_wav (separate_stems ⟨["drums", "bass", "other", "vocals"],
        fun _ _ => [[1000], [200], [30], [4]]⟩ [] [0] 44100 "song" "acca").1
      "temp/out_song/instrumental.wav" = [] ∧
    from_wav (separate_stems ⟨["drums", "bass", "other", "vocals"],
        fun _ _ => [[1000], [200], [30], [4]]⟩ [] [0] 44100 "song" "acca").1
      "temp/out_song/drums.wav" = [1000] ∧
    clamp (1000 + 200 + 30) = 1230 := by
  refine ⟨by decide, by decide, by decide⟩

/-- Claim C2: a lane is reduction-class iff it contains the marker
substring `"acca"`, and for every other lane the aggregation step is the
identity on the stem mapping (and on the filesystem) — no
`UnknownLaneError` exists in the code, unrecognized lanes fall through to
the raw class. -/
theorem c2_lane_classification (files : FileSystem)
    (stem_map : List (String × Option String)) (output_dir lane : String) :
    (isAccaLane lane = true ↔ ∃ s t, lane.data = s ++ "acca".data ++ t) ∧
    (isAccaLane lane = false → aggregate files stem_map output_dir lane = (files, stem_map)) := by
  refine ⟨containsSub_iff _ _, fun h => ?_⟩
  simp [aggregate, h]

theorem c2_lane_classification_witness :
    (isAccaLane "default" = true ↔ ∃ s t, "default".data = s ++ "acca".data ++ t) ∧
    aggregate [("p", [1])] [("drums", some "p")] "d" "default" =
      ([("p", [1])], [("drums", some "p")]) :=
  ⟨(c2_lane_classification [("p", [1])] [("drums", some "p")] "d" "default").1,
   (c2_lane_classification [("p", [1])] [("drums", some "p")] "d" "default").2 (by decide)⟩

/-- Claim C3: for every reduction-class lane and a StemSet with a vocals
entry, the aggregated mapping has exactly the two keys `vocals` and
`instrumental`, and the `vocals` value is the StemSet's vocals entry
passed through unchanged. -/
theorem c3_reduction_two_keys (files : FileSystem)
    (stem_map : List (String × Option String)) (output_dir lane p : String)
    (hl : isAccaLane lane = true)
    (hv : stem_map.lookup "vocals" = some (some p)) :
    (aggregate files stem_map output_dir lane).2.map Prod.fst = ["vocals", "instrumental"] ∧
    (aggregate files stem_map output_dir lane).2.lookup "vocals" = some (some p) := by
  simp [aggregate, hl, hv, List.lookup]

theorem c3_reduction_two_keys_witness :
    (aggregate [] [("vocals", some "v.wav")] "d" "acca").2.map Prod.fst =
      ["vocals", "instrumental"] ∧
    (aggregate [] [("vocals", some "v.wav")] "d" "acca").2.lookup "vocals" =
      some (some "v.wav") :=
  c3_reduction_two_keys [] [("vocals", some "v.wav")] "d" "acca" "v.wav" (by decide) (by decide)

/-- Claim C4 counterexample: with a StemSet containing only `vocals`
(here of length 2), the instrumental written by the reduction branch has
length 0, NOT the length of the vocals waveform, refuting the claim as
stated at this concrete input. -/
theorem c4_counterexample :
    from_wav (separate_stems ⟨["vocals"], fun _ _ => [[5, 6]]⟩ [] [5, 6] 44100 "song" "acca").1
      "temp/out_song/vocals.wav" = [5, 6] ∧
    (from_wav (separate_stems ⟨["vocals"], fun _ _ => [[5, 6]]⟩ [] [5, 6] 44100 "song" "acca").1
        "temp/out_song/instrumental.wav").length ≠
      (from_wav (separate_stems ⟨["vocals"], fun _ _ => [[5, 6]]⟩ [] [5, 6] 44100 "song" "acca").1
        "temp/out_song/vocals.wav").length := by
  refine ⟨by decide, by decide⟩

/-- Claim C4 (amended): for a reduction-class lane, a StemSet containing
only `vocals` yields an `instrumental` waveform of zero amplitude and
ZERO length (the empty waveform), returned as an output, not an error. -/
theorem c4_vocals_only_instrumental_empty (w wav : List Int) (sr : Nat)
    (files : FileSystem) (audio_stem lane : String) (h : isAccaLane lane = true) :
    from_wav (separate_stems ⟨["vocals"], fun _ _ => [w]⟩ files wav sr audio_stem lane).1
      ("temp/out_" ++ audio_stem ++ "/instrumental.wav") = [] ∧
    (separate_stems ⟨["vocals"], fun _ _ => [w]⟩ files wav sr audio_stem lane).2.lookup
      "instrumental" = some (some ("temp/out_" ++ audio_stem ++ "/instrumental.wav")) := by
  simp [separate_stems, apply_model, write_stems, aggregate, h, from_wav, List.lookup,
    overlay, silent]

theorem c4_vocals_only_instrumental_empty_witness :
    from_wav (separate_stems ⟨["vocals"], fun _ _ => [[5, 6]]⟩ [] [5, 6] 44100 "x" "acca").1
      ("temp/out_" ++ "x" ++ "/instrumental.wav") = [] ∧
    (separate_stems ⟨["vocals"], fun _ _ => [[5, 6]]⟩ [] [5, 6] 44100 "x" "acca").2.lookup
      "instrumental" = some (some ("temp/out_" ++ "x" ++ "/instrumental.wav")) :=
  c4_vocals_only_instrumental_empty [5, 6] [5, 6] 44100 [] "x" "acca" (by decide)

/-- Claim C5: for a reduction-class lane, if the StemSet has zero
non-vocal stems, the synthesized instrumental is the empty waveform
(silence of zero duration), written and returned without any error. -/
theorem c5_no_nonvocal_stems_empty_instrumental (files : FileSystem)
    (stem_map : List (String × Option String)) (output_dir lane : String)
    (hl : isAccaLane lane = true)
    (h : stem_map.filter (fun e => e.1 != "vocals") = []) :
    (aggregate files stem_map output_dir lane).1.lookup (output_dir ++ "/instrumental.wav") =
      some [] ∧
    (aggregate files stem_map output_dir lane).2.lookup "instrumental" =
      some (some (output_dir ++ "/instrumental.wav")) := by
  simp [aggregate, hl, h, List.lookup, silent]

theorem c5_no_nonvocal_stems_empty_instrumental_witness :
    (aggregate [] [("vocals", some "v")] "d" "acca").1.lookup ("d" ++ "/instrumental.wav") =
      some [] ∧
    (aggregate [] [("vocals", some "v")] "d" "acca").2.lookup "instrumental" =
      some (some ("d" ++ "/instrumental.wav")) :=
  c5_no_nonvocal_stems_empty_instrumental [] [("vocals", some "v")] "d" "acca"
    (by decide) (by decide)

/-- Claim C6 counterexample: an empty (zero-byte) upload does NOT fail
with `UploadError` — `save_upload_to_disk` persists it without any
validation and the request then fails with a decode error at
`torchaudio.load`; the persisted upload file remains on disk. -/
theorem c6_counterexample :
    (process_audio ⟨⟨["drums", "bass", "other", "vocals"], fun w _ => [w, w, w, w]⟩, []⟩
      "id" ⟨"song.wav", []⟩ "default").1 = .error .decodeError ∧
    Err.decodeError ≠ Err.uploadError ∧
    (process_audio ⟨⟨["drums", "bass", "other", "vocals"], fun w _ => [w, w, w, w]⟩, []⟩
      "id" ⟨"song.wav", []⟩ "default").2.files = [("temp/id_song.wav", [])] := by
  refine ⟨rfl, by decide, rfl⟩

/-- Claim C6 (amended): an empty upload is persisted unvalidated and the
request fails with a decode error when the audio is loaded (the code has
no `UploadError`); no stem or instrumental output files are created — the
filesystem gains exactly the persisted upload file. -/
theorem c6_empty_upload_decode_error (s : ServerState) (file_id : String)
    (upload : Upload) (lane : String) (h : upload.bytes = []) :
    (process_audio s file_id upload lane).1 = .error .decodeError ∧
    (process_audio s file_id upload lane).2.files =
      ("temp/" ++ file_id ++ "_" ++ upload.filename, upload.bytes) :: s.files := by
  simp [process_audio, save_upload_to_disk, from_wav, List.lookup, torchaudio_load, h]

theorem c6_empty_upload_decode_error_witness :
    (process_audio ⟨⟨["drums"], fun w _ => [w]⟩, []⟩ "id" ⟨"song.wav", []⟩ "default").1 =
      .error .decodeError ∧
    (process_audio ⟨⟨["drums"], fun w _ => [w]⟩, []⟩ "id" ⟨"song.wav", []⟩ "default").2.files =
      ("temp/" ++ "id" ++ "_" ++ "song.wav", []) :: [] :=
  c6_empty_upload_decode_error ⟨⟨["drums"], fun w _ => [w]⟩, []⟩ "id" ⟨"song.wav", []⟩
    "default" rfl

/-- Claim C7: the response shape and the url scheme hold — one entry per
aggregated pair with `url = "/files/" + basename(path)` — but the named
file is NOT retrievable at that URL: the static mount serves `/files/X`
from `temp/X`, while the stem files are written into the subdirectory
`temp/out_<stem>/`, so the resolved path was never written. -/
theorem c7_url_not_retrievable :
    (process_audio ⟨⟨["drums", "bass", "other", "vocals"], fun w _ => [w, w, w, w]⟩, []⟩
      "id" ⟨"song.wav", [7]⟩ "default").1 =
      .ok [⟨"drums", "temp/out_id_song/drums.wav", "/files/drums.wav"⟩,
           ⟨"bass", "temp/out_id_song/bass.wav", "/files/bass.wav"⟩,
           ⟨"other", "temp/out_id_song/other.wav", "/files/other.wav"⟩,
           ⟨"vocals", "temp/out_id_song/vocals.wav", "/files/vocals.wav"⟩] ∧
    static_resolve "/files/drums.wav" = some "temp/drums.wav" ∧
    (process_audio ⟨⟨["drums", "bass", "other", "vocals"], fun w _ => [w, w, w, w]⟩, []⟩
      "id" ⟨"song.wav", [7]⟩ "default").2.files.lookup "temp/drums.wav" = none ∧
    (process_audio ⟨⟨["drums", "bass", "other", "vocals"], fun w _ => [w, w, w, w]⟩, []⟩
      "id" ⟨"song.wav", [7]⟩ "default").2.files.lookup "temp/out_id_song/drums.wav" =
      some [7] := by
  refine ⟨rfl, by decide, by decide, by decide⟩

/-- Claim C8: the model is process-wide, read-only state — it is loaded
once into `ServerState` and no sequence of requests changes it: after any
list of `process_audio` calls the model component is the initial one. -/
theorem c8_model_never_mutated (s : ServerState) (reqs : List (String × Upload × String)) :
    ((reqs.foldl (fun st r => (process_audio st r.1 r.2.1 r.2.2).2) s).model = s.model) := by
  induction reqs generalizing s with
  | nil => rfl
  | cons r rest ih =>
    rw [List.foldl_cons]
    exact (ih _).trans (process_audio_model s r.1 r.2.1 r.2.2)

/-- Claim C9: for a reduction-class lane, every stem of the model's
source vocabulary is still written as an individual file into the
request's output directory, even though the returned mapping is narrowed
to exactly `vocals` and `instrumental`. -/
theorem c9_all_stems_written_for_reduction (model : DemucsModel) (files : FileSystem)
    (wav : List Int) (sr : Nat) (audio_stem lane : String) (h : isAccaLane lane = true) :
    (∀ name audio, (name, audio) ∈ model.sources.zip (apply_model model wav sr) →
      ("temp/out_" ++ audio_stem ++ "/" ++ name ++ ".wav", audio) ∈
        (separate_stems model files wav sr audio_stem lane).1) ∧
    (separate_stems model files wav sr audio_stem lane).2.map Prod.fst =
      ["vocals", "instrumental"] := by
  constructor
  · intro name audio hmem
    have hw := write_stems_mem_write ("temp/out_" ++ audio_stem) name audio
      (model.sources.zip (apply_model model wav sr)) files [] hmem
    simp only [separate_stems, aggregate, h, if_pos]
    exact List.mem_cons_of_mem _ hw
  · simp [separate_stems, aggregate, h]

theorem c9_all_stems_written_for_reduction_witness :
    ("temp/out_x/drums.wav", [1]) ∈
      (separate_stems ⟨["drums", "bass", "other", "vocals"],
        fun _ _ => [[1], [2], [3], [4]]⟩ [] [0] 1 "x" "acca").1 :=
  (c9_all_stems_written_for_reduction ⟨["drums", "bass", "other", "vocals"],
      fun _ _ => [[1], [2], [3], [4]]⟩ [] [0] 1 "x" "acca" (by decide)).1
    "drums" [1] (by decide)

/-- Claim C10: for a reduction-class lane, a StemSet without a `vocals`
entry does not make aggregation fail: the returned mapping still has a
`vocals` key holding the absent marker (`None`), next to the synthesized
`instrumental`. -/
theorem c10_missing_vocals_returns_none (files : FileSystem)
    (stem_map : List (String × Option String)) (output_dir lane : String)
    (hl : isAccaLane lane = true)
    (hv : stem_map.lookup "vocals" = none) :
    (aggregate files stem_map output_dir lane).2 =
      [("vocals", none), ("instrumental", some (output_dir ++ "/instrumental.wav"))] := by
  simp [aggregate, hl, hv]

theorem c10_missing_vocals_returns_none_witness :
    (aggregate [("d/drums.wav", [1])] [("drums", some "d/drums.wav")] "d" "acca").2 =
      [("vocals", none), ("instrumental", some ("d" ++ "/instrumental.wav"))] :=
  c10_missing_vocals_returns_none [("d/drums.wav", [1])] [("drums", some "d/drums.wav")]
    "d" "acca" (by decide) (by decide)
